import Mathlib

/-!
Shallow embedding of the Eeko Stream Deck plugin action
(`src/actions/trigger-automation.ts`, class `TriggerAutomation`).

Event handlers are modelled as pure functions from the inputs the handler
reads (per-button settings, the globally stored API key, and the outcome of
each outbound HTTP call) to the ordered list of observable effects the
handler performs, the delayed resets it schedules, and the exception that
escapes it, if any.  JavaScript string truthiness (`undefined`/`''` falsy)
is modelled explicitly.
-/

namespace StreamDeckPlugin

/-- Per-button settings (`AutomationSettings` in the source): both fields are
optional strings. -/
structure AutomationSettings where
  automationId : Option String
  automationName : Option String
deriving Repr, DecidableEq

/-- One record of the `automations` array returned by the remote API
(`AutomationData` in the source). -/
structure AutomationData where
  id : String
  name : String
  description : Option String
deriving Repr, DecidableEq

/-- JavaScript truthiness of an optional string: `undefined` and the empty
string are falsy, every other string is truthy.  This is the meaning of
`if (x)` on the optional string fields in the source. -/
def truthy : Option String → Bool
  | none => false
  | some s => !(s == "")

/-- JavaScript `a || b` on a string that may be absent or empty. -/
def jsOr (a : Option String) (b : String) : String :=
  if truthy a then a.getD "" else b

/-- JavaScript `a || b` where `a` is a plain string (empty string is falsy). -/
def jsOrStr (a b : String) : String :=
  if a == "" then b else a

/-- Membership in the character class `[a-zA-Z0-9_-]` of the validation
regex in `validateApiKey`. -/
def isApiKeyChar (c : Char) : Bool :=
  ('a' ≤ c && c ≤ 'z') || ('A' ≤ c && c ≤ 'Z') || ('0' ≤ c && c ≤ '9')
    || (c == '_') || (c == '-')

/-- `/^[a-zA-Z0-9_-]+$/.test(s)`: the string is non-empty and every
character belongs to the class. -/
def regexTest (s : String) : Bool :=
  !(s.data.isEmpty) && s.data.all isApiKeyChar

/-- `TriggerAutomation.validateApiKey`: length strictly greater than 10,
strictly less than 200, and the regex test passes. -/
def validateApiKey (s : String) : Bool :=
  decide (s.length > 10) && decide (s.length < 200) && regexTest s

/-- Does the second character list occur at the front of the first? -/
def matchesFront : List Char → List Char → Bool
  | _, [] => true
  | [], _ :: _ => false
  | a :: as, b :: bs => a == b && matchesFront as bs

/-- Does the second character list occur as a contiguous run anywhere in
the first? -/
def containsSub : List Char → List Char → Bool
  | [], pat => pat.isEmpty
  | a :: rest, pat => matchesFront (a :: rest) pat || containsSub rest pat

/-- JavaScript `s.includes(sub)`: substring containment. -/
def jsIncludes (s sub : String) : Bool :=
  containsSub s.data sub.data

end StreamDeckPlugin

namespace StreamDeckPlugin

/-- C3 helper: the spec-side characterisation of a valid credential. -/
def specValidCredential (s : String) : Prop :=
  10 < s.length ∧ s.length < 200 ∧ ∀ c ∈ s.data, isApiKeyChar c = true

instance (s : String) : Decidable (specValidCredential s) := by
  unfold specValidCredential; infer_instance

end StreamDeckPlugin

namespace StreamDeckPlugin

/-- C3: `validateApiKey` returns true for exactly the strings whose length is
strictly between 10 and 200 and all of whose characters are in
`[A-Za-z0-9_-]`; the rejections of the empty string, strings of length 10 or
200, and strings with a character outside the class are all instances. -/
theorem validateApiKey_correct (s : String) :
    validateApiKey s = true ↔ specValidCredential s := by
  unfold validateApiKey regexTest specValidCredential
  rw [Bool.and_eq_true, Bool.and_eq_true, Bool.and_eq_true]
  simp only [decide_eq_true_eq, Bool.not_eq_true', List.isEmpty_eq_false,
    List.all_eq_true]
  constructor
  · rintro ⟨⟨h1, h2⟩, _, h4⟩
    exact ⟨h1, h2, h4⟩
  · rintro ⟨h1, h2, h3⟩
    refine ⟨⟨h1, h2⟩, ?_, h3⟩
    intro hnil
    have : s.length = 0 := by
      show s.data.length = 0
      simp [hnil]
    omega

/-- Witness for C3 at a concrete accepted input. -/
theorem validateApiKey_correct_witness :
    validateApiKey "eko_1234567" = true :=
  (validateApiKey_correct "eko_1234567").mpr (by decide)

end StreamDeckPlugin

namespace StreamDeckPlugin

/-- Events relayed to the property inspector via
`streamDeck.ui.current?.sendToPropertyInspector`. -/
inductive PIEvent where
  | apiKeyLoaded (apiKey : String)
  | apiKeyTested (valid : Bool) (error : Option String)
  | automationsLoaded (automations : List AutomationData)
  | automationsError (error : String)
  | apiKeyError (error : String)
deriving Repr, DecidableEq

/-- Observable effects a handler performs, in program order. -/
inductive Effect where
  | setTitle (title : String)
  | setImage (image : String)
  | showAlert
  | httpGet (url : String) (apiKey : String)
  | httpPost (url : String) (apiKey : String) (automationId : String)
  | setGlobalApiKey (key : String)
  | sendToPropertyInspector (e : PIEvent)
deriving Repr, DecidableEq

/-- Is the effect an outbound network call? -/
def Effect.isNetwork : Effect → Bool
  | .httpGet _ _ => true
  | .httpPost _ _ _ => true
  | _ => false

/-- Result of running one handler: the effects performed, the delayed resets
scheduled via `setTimeout` as (delay in ms, effects the callback performs),
and the exception escaping the handler, if any. -/
structure HandlerResult where
  effects : List Effect
  scheduled : List (Nat × List Effect)
  thrown : Option String
deriving Repr, DecidableEq

def emptyResult : HandlerResult := { effects := [], scheduled := [], thrown := none }

def automationsUrl : String := "https://api.eeko.app/api/triggers/automations"

def triggerUrl : String := "https://api.eeko.app/api/triggers/streamdeck"

def pressedImage : String := "imgs/actions/automation/key-pressed"

def defaultImage : String := "imgs/actions/automation/key"

/-- Outcome of one `GET /api/triggers/automations` call, as the handler
observes it: success (with the parsed `automations` field, possibly absent),
a non-ok HTTP status, or a rejected fetch carrying an `Error` message. -/
inductive ListOutcome where
  | ok (automations : Option (List AutomationData))
  | status (code : Nat)
  | exn (message : String)
deriving Repr, DecidableEq

/-- Outcome of the `POST /api/triggers/streamdeck` call in `onKeyUp`:
success, a non-ok HTTP status (the code then throws
`Error('Failed to trigger automation')`), a rejection with an `Error`
carrying a message, or a rejection with a non-`Error` value. -/
inductive TriggerOutcome where
  | ok
  | httpError
  | exnError (message : String)
  | exnOther
deriving Repr, DecidableEq

/-- `TriggerAutomation.onWillAppear`: the title set when the action becomes
visible.  Only `settings.automationName` is consulted. -/
def onWillAppear (settings : AutomationSettings) : List Effect :=
  if truthy settings.automationName then
    [Effect.setTitle (settings.automationName.getD "")]
  else
    [Effect.setTitle "Configure\nAutomation"]

/-- `TriggerAutomation.validateApiKeyAndFetchAutomations`: GET the
automations list; on ok relay `automationsLoaded`, on a non-ok status relay
`apiKeyError` with the status, on a connection error relay a fixed
`apiKeyError` label. -/
def validateApiKeyAndFetchAutomations (apiKey : String) (outcome : ListOutcome) :
    List Effect :=
  Effect.httpGet automationsUrl apiKey ::
    match outcome with
    | .ok autos =>
        [Effect.sendToPropertyInspector (.automationsLoaded (autos.getD []))]
    | .status code =>
        [Effect.sendToPropertyInspector
          (.apiKeyError ("API key validation failed: " ++ toString code))]
    | .exn _ =>
        [Effect.sendToPropertyInspector
          (.apiKeyError "Connection error - check your internet connection")]

/-- `TriggerAutomation.onDidReceiveSettings`: set the title from
`automationName`, falling back to "Select\nAutomation" when an API key is
stored and "Configure\nAutomation" otherwise; then, when an API key is
stored and `automationId` is absent, validate the key and fetch the
catalog. -/
def onDidReceiveSettings (apiKey : Option String) (settings : AutomationSettings)
    (outcome : ListOutcome) : List Effect :=
  (if truthy settings.automationName then
    [Effect.setTitle (settings.automationName.getD "")]
  else if truthy apiKey then
    [Effect.setTitle "Select\nAutomation"]
  else
    [Effect.setTitle "Configure\nAutomation"])
  ++ (if truthy apiKey && !truthy settings.automationId then
    validateApiKeyAndFetchAutomations (apiKey.getD "") outcome
  else
    [])

/-- `TriggerAutomation.onKeyDown`: deliberately a no-op. -/
def onKeyDown : HandlerResult := emptyResult

/-- The sanitized display label `onKeyUp` computes in its catch block:
`error instanceof Error ? (error.message.includes('API') ? 'API Error' :
'Failed') : 'Error'`, where a non-ok response first throws
`Error('Failed to trigger automation')`. -/
def classifyFailure : TriggerOutcome → String
  | .ok => ""
  | .httpError =>
      if jsIncludes "Failed to trigger automation" "API" then "API Error" else "Failed"
  | .exnError m => if jsIncludes m "API" then "API Error" else "Failed"
  | .exnOther => "Error"

/-- `TriggerAutomation.onKeyUp`: the three branches (missing key, missing
automation selection, trigger attempt) with the success and catch paths of
the trigger attempt. -/
def onKeyUp (apiKey : Option String) (settings : AutomationSettings)
    (outcome : TriggerOutcome) : HandlerResult :=
  if !truthy apiKey then
    { effects := [Effect.setTitle "Missing\nAPI Key", Effect.showAlert],
      scheduled := [(3000, [Effect.setTitle "Configure\nAutomation"])],
      thrown := none }
  else if !truthy settings.automationId || !truthy settings.automationName then
    { effects := [Effect.setTitle "No Automation\nSelected", Effect.showAlert],
      scheduled := [(3000, [Effect.setTitle "Select\nAutomation"])],
      thrown := none }
  else
    let name := settings.automationName.getD ""
    let pre := [Effect.setTitle ("Triggering\n" ++ name),
                Effect.httpPost triggerUrl (apiKey.getD "") (settings.automationId.getD "")]
    match outcome with
    | .ok =>
        { effects := pre ++ [Effect.setTitle ("Triggered!\n" ++ name),
                             Effect.setImage pressedImage],
          scheduled := [(2000, [Effect.setTitle name, Effect.setImage defaultImage])],
          thrown := none }
    | o =>
        { effects := pre ++ [Effect.setTitle ("Error\n" ++ classifyFailure o),
                             Effect.showAlert],
          scheduled := [(3000, [Effect.setTitle (jsOr settings.automationName "Configure\nAutomation")])],
          thrown := none }

/-- `TriggerAutomation.handleFetchAutomations`: GET the automations list;
on ok relay `automationsLoaded`; on a non-ok status the code throws
`Error('Failed to fetch automations: ' + status)` and the catch relays
`(error as Error).message || 'Failed to load automations'` as
`automationsError`; a rejected fetch reaches the same catch with its own
message. -/
def handleFetchAutomations (apiKey : String) (outcome : ListOutcome) : List Effect :=
  Effect.httpGet automationsUrl apiKey ::
    match outcome with
    | .ok autos =>
        [Effect.sendToPropertyInspector (.automationsLoaded (autos.getD []))]
    | .status code =>
        [Effect.sendToPropertyInspector
          (.automationsError (jsOrStr ("Failed to fetch automations: " ++ toString code)
            "Failed to load automations"))]
    | .exn m =>
        [Effect.sendToPropertyInspector
          (.automationsError (jsOrStr m "Failed to load automations"))]

/-- `TriggerAutomation.handleTestApiKey`: GET the automations list; on ok
relay `apiKeyTested{valid:true}` and fetch the catalog; on a non-ok status
relay `apiKeyTested{valid:false}` with a label chosen by status; on a
connection error relay a fixed label. -/
def handleTestApiKey (apiKey : String) (testOutcome fetchOutcome : ListOutcome) :
    List Effect :=
  Effect.httpGet automationsUrl apiKey ::
    match testOutcome with
    | .ok _ =>
        Effect.sendToPropertyInspector (.apiKeyTested true none) ::
          handleFetchAutomations apiKey fetchOutcome
    | .status code =>
        [Effect.sendToPropertyInspector (.apiKeyTested false (some
          (if code == 401 then "Invalid or expired API key"
           else if code == 403 then "API key does not have required permissions"
           else "API error: " ++ toString code)))]
    | .exn _ =>
        [Effect.sendToPropertyInspector (.apiKeyTested false
          (some "Connection error - check your internet connection"))]

/-- `TriggerAutomation.handleGetApiKey`: relay the stored key (or `''`). -/
def handleGetApiKey (storedApiKey : Option String) : List Effect :=
  [Effect.sendToPropertyInspector (.apiKeyLoaded (jsOr storedApiKey ""))]

/-- The message envelope received from the property inspector
(`PIPayload` in the source): an action string and `data.apiKey`. -/
structure PIPayload where
  pi_action : String
  apiKey : Option String
deriving Repr, DecidableEq

/-- The environment a property-inspector message is handled in: the stored
global API key and the outcomes of the test and fetch HTTP calls, should
they happen. -/
structure Env where
  storedApiKey : Option String
  testOutcome : ListOutcome
  fetchOutcome : ListOutcome
deriving Repr, DecidableEq

/-- `TriggerAutomation.saveApiKey` followed by the convenience test chain of
the `saveApiKey` message: an invalid key throws
`Error('Invalid API key format')` before any write or network call;
otherwise the key is persisted and then tested. -/
def saveApiKeyChain (env : Env) (apiKey : String) : HandlerResult :=
  if !validateApiKey apiKey then
    { effects := [], scheduled := [], thrown := some "Invalid API key format" }
  else
    { effects := Effect.setGlobalApiKey apiKey ::
        handleTestApiKey apiKey env.testOutcome env.fetchOutcome,
      scheduled := [], thrown := none }

/-- `TriggerAutomation.onSendToPlugin`: dispatch on the action string; the
three key-carrying actions do nothing when `data.apiKey` is absent or
empty; unknown actions do nothing.  There is no catch, so an exception
thrown by `saveApiKey` escapes the handler. -/
def onSendToPlugin (env : Env) (p : PIPayload) : HandlerResult :=
  if p.pi_action = "saveApiKey" then
    if truthy p.apiKey then saveApiKeyChain env (p.apiKey.getD "") else emptyResult
  else if p.pi_action = "testApiKey" then
    if truthy p.apiKey then
      { effects := handleTestApiKey (p.apiKey.getD "") env.testOutcome env.fetchOutcome,
        scheduled := [], thrown := none }
    else emptyResult
  else if p.pi_action = "fetchAutomations" then
    if truthy p.apiKey then
      { effects := handleFetchAutomations (p.apiKey.getD "") env.fetchOutcome,
        scheduled := [], thrown := none }
    else emptyResult
  else if p.pi_action = "getApiKey" then
    { effects := handleGetApiKey env.storedApiKey, scheduled := [], thrown := none }
  else
    emptyResult

end StreamDeckPlugin

namespace StreamDeckPlugin

/-- A delayed reset registered in the timeout set: the absolute time it
fires at and the effects its callback performs. -/
structure PendingReset where
  fireAt : Nat
  resetEffects : List Effect
deriving Repr, DecidableEq

/-- The externally observable state of one button instance together with
the instance's set of outstanding timeout handles (`timeoutHandles`). -/
structure InstState where
  title : String
  image : String
  pending : List PendingReset
deriving Repr, DecidableEq

/-- How one effect changes the visible title/image (network and relay
effects do not). -/
def applyVisual (s : InstState) : Effect → InstState
  | .setTitle t => { s with title := t }
  | .setImage i => { s with image := i }
  | _ => s

def applyVisuals (s : InstState) (effs : List Effect) : InstState :=
  effs.foldl applyVisual s

/-- Register the delayed resets a handler scheduled at time `now`. -/
def registerResets (now : Nat) (s : InstState) (delayed : List (Nat × List Effect)) :
    InstState :=
  { s with pending := s.pending ++ delayed.map (fun d => ⟨now + d.1, d.2⟩) }

/-- Advance the clock to `now`: every pending reset due by `now` fires (its
effects are applied) and is removed. -/
def advanceTo (now : Nat) (s : InstState) : InstState :=
  (s.pending.filter (fun p => decide (p.fireAt ≤ now))).foldl
    (fun st p => applyVisuals st p.resetEffects)
    { s with pending := s.pending.filter (fun p => decide (now < p.fireAt)) }

/-- `TriggerAutomation.cleanupTimeouts`: clear every outstanding timeout. -/
def cleanupTimeouts (s : InstState) : InstState := { s with pending := [] }

/-- `TriggerAutomation.onWillDisappear`: exactly `cleanupTimeouts`. -/
def onWillDisappearInst (s : InstState) : InstState := cleanupTimeouts s

end StreamDeckPlugin

namespace StreamDeckPlugin

/-- C1: On key-up with a credential stored and both automationId and
automationName present, the title is set to "Triggering\n<name>" before the
trigger POST is issued; when the call returns ok the title becomes
"Triggered!\n<name>" and the image the pressed asset, and a 2000ms reset is
scheduled that restores the title to <name> and the image to the default
asset. -/
theorem keyUp_success_trace (apiKey : Option String) (settings : AutomationSettings)
    (hk : truthy apiKey = true) (hid : truthy settings.automationId = true)
    (hname : truthy settings.automationName = true) :
    onKeyUp apiKey settings .ok =
      { effects := [Effect.setTitle ("Triggering\n" ++ settings.automationName.getD ""),
                    Effect.httpPost triggerUrl (apiKey.getD "") (settings.automationId.getD ""),
                    Effect.setTitle ("Triggered!\n" ++ settings.automationName.getD ""),
                    Effect.setImage pressedImage],
        scheduled := [(2000, [Effect.setTitle (settings.automationName.getD ""),
                              Effect.setImage defaultImage])],
        thrown := none } := by
  simp [onKeyUp, hk, hid, hname]

/-- Witness for C1 at a concrete successful key-up. -/
theorem keyUp_success_trace_witness :
    onKeyUp (some "eko_1234567890") ⟨some "a1", some "Daily Report"⟩ .ok =
      { effects := [Effect.setTitle "Triggering\nDaily Report",
                    Effect.httpPost triggerUrl "eko_1234567890" "a1",
                    Effect.setTitle "Triggered!\nDaily Report",
                    Effect.setImage pressedImage],
        scheduled := [(2000, [Effect.setTitle "Daily Report",
                              Effect.setImage defaultImage])],
        thrown := none } :=
  keyUp_success_trace _ _ (by decide) (by decide) (by decide)

/-- C9: On key-up with no stored credential, the title becomes
"Missing\nAPI Key", an alert is shown, no network call is made, a 3000ms
reset to "Configure\nAutomation" is scheduled, and no exception escapes the
handler. -/
theorem keyUp_missingKey (apiKey : Option String) (settings : AutomationSettings)
    (outcome : TriggerOutcome) (hk : truthy apiKey = false) :
    onKeyUp apiKey settings outcome =
      { effects := [Effect.setTitle "Missing\nAPI Key", Effect.showAlert],
        scheduled := [(3000, [Effect.setTitle "Configure\nAutomation"])],
        thrown := none } ∧
    (onKeyUp apiKey settings outcome).effects.all (fun e => !e.isNetwork) = true ∧
    (onKeyUp apiKey settings outcome).thrown = none := by
  simp [onKeyUp, hk, Effect.isNetwork]

/-- Witness for C9 with the credential absent. -/
theorem keyUp_missingKey_witness :
    onKeyUp none ⟨some "a1", some "Daily Report"⟩ .ok =
      { effects := [Effect.setTitle "Missing\nAPI Key", Effect.showAlert],
        scheduled := [(3000, [Effect.setTitle "Configure\nAutomation"])],
        thrown := none } :=
  (keyUp_missingKey none ⟨some "a1", some "Daily Report"⟩ .ok (by decide)).1

/-- C6: After a disappear event every pending reset of the instance is
cancelled: advancing the clock to any time changes neither the title nor
the image nor the (empty) pending set, whatever resets were pending. -/
theorem disappear_cancels_resets (s : InstState) (t : Nat) :
    advanceTo t (onWillDisappearInst s) = onWillDisappearInst s ∧
    (advanceTo t (onWillDisappearInst s)).title = s.title ∧
    (advanceTo t (onWillDisappearInst s)).image = s.image ∧
    (onWillDisappearInst s).pending = [] := by
  simp [advanceTo, onWillDisappearInst, cleanupTimeouts]

/-- Witness for C6 at a concrete state with a pending 2000ms reset. -/
theorem disappear_cancels_resets_witness :
    advanceTo 10000 (onWillDisappearInst
        ⟨"Triggered!\nDaily Report", pressedImage,
         [⟨2000, [Effect.setTitle "Daily Report", Effect.setImage defaultImage]⟩]⟩) =
      onWillDisappearInst
        ⟨"Triggered!\nDaily Report", pressedImage,
         [⟨2000, [Effect.setTitle "Daily Report", Effect.setImage defaultImage]⟩]⟩ :=
  (disappear_cancels_resets _ _).1

/-- C10: A property-inspector message with an unknown action, or a
saveApiKey/testApiKey/fetchAutomations message whose data has no (or an
empty) apiKey, is a complete no-op: no effects, nothing scheduled, nothing
thrown. -/
theorem sendToPlugin_noop (env : Env) (p : PIPayload)
    (h : (p.pi_action ≠ "saveApiKey" ∧ p.pi_action ≠ "testApiKey" ∧
          p.pi_action ≠ "fetchAutomations" ∧ p.pi_action ≠ "getApiKey") ∨
         ((p.pi_action = "saveApiKey" ∨ p.pi_action = "testApiKey" ∨
           p.pi_action = "fetchAutomations") ∧ truthy p.apiKey = false)) :
    onSendToPlugin env p = emptyResult := by
  rcases h with ⟨h1, h2, h3, h4⟩ | ⟨ha, ht⟩
  · simp [onSendToPlugin, h1, h2, h3, h4]
  · rcases ha with ha | ha | ha <;> simp [onSendToPlugin, ha, ht]

/-- Witness for C10: an unknown action with a key attached does nothing. -/
theorem sendToPlugin_noop_witness :
    onSendToPlugin ⟨none, .exn "", .exn ""⟩ ⟨"unknownAction", some "eko_1234567890"⟩ =
      emptyResult :=
  sendToPlugin_noop _ _ (Or.inl (by decide))

/-- C2 counterexample: with a credential present and settings lacking the
AutomationRef, the appear handler still sets "Configure\nAutomation" — it
never consults the credential — so appear does not show
"Select\nAutomation" as the claim states. -/
theorem appear_ignores_credential :
    truthy (some "eko_1234567890") = true ∧
    onWillAppear ⟨none, none⟩ = [Effect.setTitle "Configure\nAutomation"] ∧
    Effect.setTitle "Configure\nAutomation" ≠ Effect.setTitle "Select\nAutomation" := by
  decide

/-- C2 amended: with a credential present and settings lacking both fields,
the settings-changed handler sets "Select\nAutomation" and starts the
credential validation and catalog fetch, whereas the appear handler sets
"Configure\nAutomation"; the two events do not agree. -/
theorem settingsChanged_select_appear_configure
    (apiKey : Option String) (settings : AutomationSettings) (outcome : ListOutcome)
    (hk : truthy apiKey = true) (hname : truthy settings.automationName = false)
    (hid : truthy settings.automationId = false) :
    onDidReceiveSettings apiKey settings outcome =
      Effect.setTitle "Select\nAutomation" ::
        validateApiKeyAndFetchAutomations (apiKey.getD "") outcome ∧
    Effect.httpGet automationsUrl (apiKey.getD "") ∈
      onDidReceiveSettings apiKey settings outcome ∧
    onWillAppear settings = [Effect.setTitle "Configure\nAutomation"] := by
  have h1 : onDidReceiveSettings apiKey settings outcome =
      Effect.setTitle "Select\nAutomation" ::
        validateApiKeyAndFetchAutomations (apiKey.getD "") outcome := by
    simp [onDidReceiveSettings, hk, hname, hid]
  refine ⟨h1, ?_, by simp [onWillAppear, hname]⟩
  rw [h1]
  cases outcome <;> simp [validateApiKeyAndFetchAutomations]

/-- Witness for the amended C2 at a concrete credential and empty settings. -/
theorem settingsChanged_select_appear_configure_witness :
    onDidReceiveSettings (some "eko_1234567890") ⟨none, none⟩ (.exn "boom") =
      Effect.setTitle "Select\nAutomation" ::
        validateApiKeyAndFetchAutomations "eko_1234567890" (.exn "boom") ∧
    Effect.httpGet automationsUrl "eko_1234567890" ∈
      onDidReceiveSettings (some "eko_1234567890") ⟨none, none⟩ (.exn "boom") ∧
    onWillAppear ⟨none, none⟩ = [Effect.setTitle "Configure\nAutomation"] :=
  settingsChanged_select_appear_configure _ _ _ (by decide) (by decide) (by decide)

/-- C8 counterexample: a name without an id is shown as configured (the
title is the name) both on appear and on settings-changed, unlike settings
with neither field, so partial settings are not treated as "not
configured" by those two handlers. -/
theorem partial_settings_counterexample :
    onWillAppear ⟨none, some "Daily Report"⟩ = [Effect.setTitle "Daily Report"] ∧
    onWillAppear ⟨none, none⟩ = [Effect.setTitle "Configure\nAutomation"] ∧
    onWillAppear ⟨none, some "Daily Report"⟩ ≠ onWillAppear ⟨none, none⟩ ∧
    (onDidReceiveSettings (some "eko_1234567890") ⟨none, some "Daily Report"⟩
        (.exn "boom")).head? = some (Effect.setTitle "Daily Report") ∧
    (onDidReceiveSettings (some "eko_1234567890") ⟨none, none⟩
        (.exn "boom")).head? = some (Effect.setTitle "Select\nAutomation") ∧
    onDidReceiveSettings (some "eko_1234567890") ⟨none, some "Daily Report"⟩
        (.exn "boom") ≠
      onDidReceiveSettings (some "eko_1234567890") ⟨none, none⟩ (.exn "boom") := by
  decide

/-- C8 amended: only the key-up handler treats settings with a missing
automationId or a missing automationName as "not configured", identically
to settings with neither field; the appear and settings-changed handlers
key the title off automationName alone, so a name without an id is
displayed as configured (the title is the name) by both, settings-changed
additionally still starting the catalog fetch since automationId is
absent. -/
theorem partial_settings_only_keyUp (apiKey : Option String)
    (settings : AutomationSettings) (outcome : TriggerOutcome) (lo : ListOutcome)
    (hk : truthy apiKey = true) :
    (truthy settings.automationId = false ∨ truthy settings.automationName = false →
      onKeyUp apiKey settings outcome = onKeyUp apiKey ⟨none, none⟩ outcome ∧
      onKeyUp apiKey settings outcome =
        { effects := [Effect.setTitle "No Automation\nSelected", Effect.showAlert],
          scheduled := [(3000, [Effect.setTitle "Select\nAutomation"])],
          thrown := none }) ∧
    (truthy settings.automationName = true →
      onWillAppear settings = [Effect.setTitle (settings.automationName.getD "")] ∧
      (truthy settings.automationId = false →
        onDidReceiveSettings apiKey settings lo =
          Effect.setTitle (settings.automationName.getD "") ::
            validateApiKeyAndFetchAutomations (apiKey.getD "") lo)) := by
  constructor
  · intro h
    have h2 : onKeyUp apiKey settings outcome =
        { effects := [Effect.setTitle "No Automation\nSelected", Effect.showAlert],
          scheduled := [(3000, [Effect.setTitle "Select\nAutomation"])],
          thrown := none } := by
      rcases h with h | h <;> simp [onKeyUp, hk, h]
    have h3 : onKeyUp apiKey ⟨none, none⟩ outcome =
        { effects := [Effect.setTitle "No Automation\nSelected", Effect.showAlert],
          scheduled := [(3000, [Effect.setTitle "Select\nAutomation"])],
          thrown := none } := by
      have hnone : truthy (none : Option String) = false := rfl
      simp [onKeyUp, hk, hnone]
    exact ⟨h2.trans h3.symm, h2⟩
  · intro hname
    refine ⟨by simp [onWillAppear, hname], ?_⟩
    intro hid
    simp [onDidReceiveSettings, hk, hname, hid]

/-- Witness for the amended C8: an id without a name behaves like neither
on key-up, and a name without an id is displayed as the name (plus the
fetch) on settings-changed. -/
theorem partial_settings_only_keyUp_witness :
    onKeyUp (some "eko_1234567890") ⟨some "a1", none⟩ .ok =
      onKeyUp (some "eko_1234567890") ⟨none, none⟩ .ok ∧
    onDidReceiveSettings (some "eko_1234567890") ⟨none, some "Daily Report"⟩
        (.exn "boom") =
      Effect.setTitle "Daily Report" ::
        validateApiKeyAndFetchAutomations "eko_1234567890" (.exn "boom") :=
  ⟨((partial_settings_only_keyUp (some "eko_1234567890") ⟨some "a1", none⟩ .ok
      (.exn "boom") (by decide)).1 (Or.inr (by decide))).1,
   ((partial_settings_only_keyUp (some "eko_1234567890") ⟨none, some "Daily Report"⟩
      .ok (.exn "boom") (by decide)).2 (by decide)).2 (by decide)⟩

/-- C4 counterexample: a trigger call that rejects with a non-Error value
yields the title "Error\nError", which is neither "Error\nAPI Error" nor
"Error\nFailed". -/
theorem keyUp_nonError_label :
    (onKeyUp (some "eko_1234567890") ⟨some "a1", some "Daily Report"⟩ .exnOther).effects =
      [Effect.setTitle "Triggering\nDaily Report",
       Effect.httpPost triggerUrl "eko_1234567890" "a1",
       Effect.setTitle "Error\nError", Effect.showAlert] ∧
    "Error\nError" ≠ "Error\n" ++ "API Error" ∧
    "Error\nError" ≠ "Error\n" ++ "Failed" := by
  decide

/-- C4 amended: every failing trigger call yields the title "Error\n"
followed by exactly one of the three fixed labels — "API Error" for a
thrown Error whose message contains "API", "Failed" for every other thrown
Error (including the synthetic error for a non-ok HTTP status), and
"Error" for a thrown non-Error value — so the raw error text never reaches
the title. -/
theorem keyUp_error_label (apiKey : Option String) (settings : AutomationSettings)
    (outcome : TriggerOutcome) (hk : truthy apiKey = true)
    (hid : truthy settings.automationId = true)
    (hname : truthy settings.automationName = true)
    (ho : outcome ≠ TriggerOutcome.ok) :
    (onKeyUp apiKey settings outcome).effects =
      [Effect.setTitle ("Triggering\n" ++ settings.automationName.getD ""),
       Effect.httpPost triggerUrl (apiKey.getD "") (settings.automationId.getD ""),
       Effect.setTitle ("Error\n" ++ classifyFailure outcome),
       Effect.showAlert] ∧
    (classifyFailure outcome = "API Error" ∨ classifyFailure outcome = "Failed" ∨
      classifyFailure outcome = "Error") ∧
    (∀ m, outcome = TriggerOutcome.exnError m →
      classifyFailure outcome =
        (if jsIncludes m "API" then "API Error" else "Failed")) ∧
    (outcome = TriggerOutcome.exnOther → classifyFailure outcome = "Error") := by
  cases outcome with
  | ok => exact absurd rfl ho
  | httpError =>
      refine ⟨by simp [onKeyUp, hk, hid, hname], ?_, ?_, ?_⟩
      · right; left; decide
      · intro m hm; cases hm
      · intro hm; cases hm
  | exnError m =>
      refine ⟨by simp [onKeyUp, hk, hid, hname], ?_, ?_, ?_⟩
      · by_cases hj : jsIncludes m "API" = true
        · left; simp [classifyFailure, hj]
        · right; left; simp [classifyFailure, hj]
      · intro m' hm'
        cases hm'
        rfl
      · intro hm; cases hm
  | exnOther =>
      refine ⟨by simp [onKeyUp, hk, hid, hname], ?_, ?_, ?_⟩
      · right; right; rfl
      · intro m hm; cases hm
      · intro _; rfl

/-- Witness for the amended C4: a thrown Error mentioning "API" carrying
internal detail is displayed as the fixed label "API Error". -/
theorem keyUp_error_label_witness :
    (onKeyUp (some "eko_1234567890") ⟨some "a1", some "Daily Report"⟩
        (.exnError "API rate limit at https://internal.host")).effects =
      [Effect.setTitle "Triggering\nDaily Report",
       Effect.httpPost triggerUrl "eko_1234567890" "a1",
       Effect.setTitle ("Error\n" ++
         classifyFailure (.exnError "API rate limit at https://internal.host")),
       Effect.showAlert] :=
  (keyUp_error_label _ _ _ (by decide) (by decide) (by decide) (by decide)).1

/-- C5 (code bug): a catalog fetch whose underlying fetch rejects with an
Error relays that error's raw message verbatim in the automationsError
event, contradicting the sanitized-error requirement. -/
theorem fetchAutomations_relays_raw_message :
    handleFetchAutomations "eko_1234567890"
        (.exn "getaddrinfo ENOTFOUND api.eeko.app") =
      [Effect.httpGet automationsUrl "eko_1234567890",
       Effect.sendToPropertyInspector
         (.automationsError "getaddrinfo ENOTFOUND api.eeko.app")] := by
  rfl

/-- C7 counterexample: a saveApiKey message carrying an invalid key is
rejected with no effect, but the validation error escapes the message
handler (`thrown` is not `none`), so the failure is not handled locally. -/
theorem saveApiKey_invalid_escapes :
    onSendToPlugin ⟨none, .exn "", .exn ""⟩ ⟨"saveApiKey", some "bad key!"⟩ =
      { effects := [], scheduled := [], thrown := some "Invalid API key format" } ∧
    some "Invalid API key format" ≠ (none : Option String) := by
  decide

/-- C7 amended: a saveApiKey message whose key fails format validation
leaves the stored credential unchanged and issues no network call and no
relay, but the thrown "Invalid API key format" error escapes the message
handler rather than being handled inside it. -/
theorem saveApiKey_invalid_no_persist (env : Env) (k : String)
    (hne : truthy (some k) = true) (hv : validateApiKey k = false) :
    onSendToPlugin env ⟨"saveApiKey", some k⟩ =
      { effects := [], scheduled := [], thrown := some "Invalid API key format" } := by
  simp [onSendToPlugin, hne, saveApiKeyChain, hv]

/-- Witness for the amended C7 at a concrete malformed key. -/
theorem saveApiKey_invalid_no_persist_witness :
    onSendToPlugin ⟨some "old_key_123", .exn "", .exn ""⟩ ⟨"saveApiKey", some "short"⟩ =
      { effects := [], scheduled := [], thrown := some "Invalid API key format" } :=
  saveApiKey_invalid_no_persist _ _ (by decide) (by decide)

end StreamDeckPlugin
